import Mathlib

/-!
Verification of the WiFiLight configuration header (src/WiFiLight/config.h).

The repository's only source file is a flat table of compile-time constants.
Each `#define` from the header is embedded below as a Lean definition of the
same name. Port numbers and the LED count become `Nat`; topic names,
credentials and the server name become `String`. The GPIO token `D2` is a
platform macro with no numeric value in the repository, so it is kept as the
literal token string.
-/

-- general
def ID_PREFIX : String := "LIGHT-"

-- LED
def NUM_LEDS : Nat := 8

def DATA_PIN : String := "D2"

-- MQTT
def MQTT_PORT : Nat := 1883

def MQTT_SERVER : String := "mymqttserver.com"

def MQTT_USER : String := "user"

def MQTT_PASSWORD : String := "password"

def MQTT_STATE_TOPIC : String := "light"

def MQTT_COMMAND_TOPIC : String := "light-set"

-- HTTP
def HTTP_SERVER_PORT : Nat := 80

-- WebSockets
def WEBSOCKET_PORT : Nat := 81

/-- A port number is usable when it lies in the valid TCP/UDP range 1..65535. -/
def validPort (p : Nat) : Prop := 1 ≤ p ∧ p ≤ 65535

instance (p : Nat) : Decidable (validPort p) := by
  unfold validPort; infer_instance

/-- Whether the string `s` contains the character `c`. -/
def stringContainsChar (s : String) (c : Char) : Bool :=
  s.data.contains c

/-- The full configuration record declared by config.h, gathering every
constant of the header into one value. -/
structure Config where
  id_pfx : String
  num_leds : Nat
  data_pin : String
  mqtt_port : Nat
  mqtt_server : String
  mqtt_user : String
  mqtt_password : String
  mqtt_state_topic : String
  mqtt_command_topic : String
  http_server_port : Nat
  websocket_port : Nat
deriving DecidableEq

/-- The configuration value fixed by config.h. -/
def wifiLightConfig : Config :=
  { id_pfx := ID_PREFIX
  , num_leds := NUM_LEDS
  , data_pin := DATA_PIN
  , mqtt_port := MQTT_PORT
  , mqtt_server := MQTT_SERVER
  , mqtt_user := MQTT_USER
  , mqtt_password := MQTT_PASSWORD
  , mqtt_state_topic := MQTT_STATE_TOPIC
  , mqtt_command_topic := MQTT_COMMAND_TOPIC
  , http_server_port := HTTP_SERVER_PORT
  , websocket_port := WEBSOCKET_PORT }

/-- The operations the program exposes that could change the configuration.
The header declares only preprocessor constants and the repository contains no
code that writes to them, so this type has no constructors. -/
inductive ConfigOp : Type

/-- Effect of one configuration-changing operation on the configuration.
Vacuous, since there are no such operations. -/
def applyConfigOp (c : Config) (op : ConfigOp) : Config :=
  nomatch op

/-- Effect of a sequence of configuration-changing operations, modelling the
configuration observed at a later point of the process lifetime. -/
def configAfter (ops : List ConfigOp) : Config :=
  ops.foldl applyConfigOp wifiLightConfig

/-- C1: the MQTT state topic and the MQTT command topic are distinct strings. -/
theorem mqtt_topics_distinct : MQTT_STATE_TOPIC ≠ MQTT_COMMAND_TOPIC := by
  decide

/-- C2: each of MQTT_PORT, HTTP_SERVER_PORT and WEBSOCKET_PORT lies within
1..65535, and the three values are pairwise distinct. -/
theorem ports_valid_and_distinct :
    validPort MQTT_PORT ∧ validPort HTTP_SERVER_PORT ∧ validPort WEBSOCKET_PORT ∧
    MQTT_PORT ≠ HTTP_SERVER_PORT ∧ MQTT_PORT ≠ WEBSOCKET_PORT ∧
    HTTP_SERVER_PORT ≠ WEBSOCKET_PORT := by
  decide

/-- C3: the LED-count constant NUM_LEDS is a positive integer. -/
theorem num_leds_pos : 0 < NUM_LEDS := by
  decide

/-- C4: the device-identifier prefix ID_PREFIX is a non-empty string. -/
theorem id_pfx_nonempty : ID_PREFIX ≠ "" := by
  decide

/-- C5: MQTT_PORT fits in a 16-bit unsigned integer and equals one of the two
typical MQTT ports, 1883 (plain) or 8883 (TLS). -/
theorem mqtt_port_typical :
    MQTT_PORT < 2 ^ 16 ∧ (MQTT_PORT = 1883 ∨ MQTT_PORT = 8883) := by
  decide

/-- C6: HTTP_SERVER_PORT fits in a 16-bit unsigned integer and equals the
default HTTP port 80. -/
theorem http_port_default :
    HTTP_SERVER_PORT < 2 ^ 16 ∧ HTTP_SERVER_PORT = 80 := by
  decide

/-- C7: the configuration record is immutable: the program exposes no
configuration-changing operation, so after any sequence of such operations the
configuration still equals the build-time value. -/
theorem config_immutable :
    ∀ ops : List ConfigOp, configAfter ops = wifiLightConfig := by
  intro ops
  cases ops with
  | nil => rfl
  | cons op _ => exact nomatch op

/-- C8: the command topic is derived from the state topic by appending the
suffix "-set", hence the state topic is a proper prefix of the command topic. -/
theorem command_topic_from_state_topic :
    MQTT_COMMAND_TOPIC = MQTT_STATE_TOPIC ++ "-set" ∧
    List.isPrefixOf MQTT_STATE_TOPIC.data MQTT_COMMAND_TOPIC.data = true ∧
    MQTT_STATE_TOPIC.length < MQTT_COMMAND_TOPIC.length := by
  decide

/-- C9: neither MQTT topic contains an MQTT wildcard character ('+' or '#')
or a topic-level separator ('/'). -/
theorem mqtt_topics_wildcard_free :
    stringContainsChar MQTT_STATE_TOPIC '+' = false ∧
    stringContainsChar MQTT_STATE_TOPIC '#' = false ∧
    stringContainsChar MQTT_STATE_TOPIC '/' = false ∧
    stringContainsChar MQTT_COMMAND_TOPIC '+' = false ∧
    stringContainsChar MQTT_COMMAND_TOPIC '#' = false ∧
    stringContainsChar MQTT_COMMAND_TOPIC '/' = false := by
  decide

/-- C10: WEBSOCKET_PORT is the immediate successor of HTTP_SERVER_PORT, the
two being 80 and 81 respectively. -/
theorem websocket_port_succ_http :
    WEBSOCKET_PORT = HTTP_SERVER_PORT + 1 ∧
    HTTP_SERVER_PORT = 80 ∧ WEBSOCKET_PORT = 81 := by
  decide
